import Mathlib

/-
Verification development for the criticality-search core of this repository:
the bracketing false-position root finder in `openmc/search.py`
(`custom_root_finder`) and the adaptive critical-concentration controller in
`openmc/deplete/coupled_operator.py` (`CoupledOperator.search_crit_conc`).

Python floats are modelled as exact rationals (`ℚ`); `numpy` elementwise
operations (`np.abs`, `np.sign`, sums of tally arrays) become the
corresponding rational operations.  Division in `ℚ` is total with `x / 0 = 0`,
which is only exercised outside the domains the source intends.
-/

namespace OpenMCSpec

/-! ## Root finder (`openmc/search.py`, `custom_root_finder`) -/

/-- Embedding of the local Python class `hold_root_cand`: a candidate point of
the search, a `(guess, value)` pair with `value = f guess` along the real
control flow. -/
structure RootCand where
  guess : ℚ
  value : ℚ
deriving DecidableEq

/-- Embedding of `np.abs` on rationals. -/
def rabs (x : ℚ) : ℚ :=
  if x < 0 then -x else x

/-- Embedding of `np.sign` on rationals: `-1`, `0`, or `1`. -/
def sgn (x : ℚ) : ℚ :=
  if x < 0 then -1 else if x = 0 then 0 else 1

/-- The truthiness test `bool((np.sign(a)*np.sign(b)+1)/2)` used throughout
`custom_root_finder`: a Python float is truthy iff it is nonzero, so this is
`true` unless the two signs are `-1` and `1` (i.e. unless `a` and `b` have
strictly opposite signs). -/
def signPairTruthy (a b : ℚ) : Bool :=
  decide ((sgn a * sgn b + 1) / 2 ≠ 0)

/-- Outcome of one `custom_root_finder` call.  The Python function either
returns a float from a within-tolerance point (`found`), returns `give.guess`
after printing a diagnostic (`closest`), or falls off the end of the `for`
loop, which in Python yields the implicit `None` (`exhausted`). -/
inductive RFOutcome where
  | found (x : ℚ)
  | closest (x : ℚ)
  | exhausted
deriving DecidableEq

/-- The false-position iterate of the main loop:
`left.guess + (right.guess-left.guess)*np.abs(left.value)/(np.abs(left.value)+np.abs(right.value))`. -/
def falsePositionStep (left right : RootCand) : ℚ :=
  left.guess + (right.guess - left.guess) * rabs left.value / (rabs left.value + rabs right.value)

/-- The diagnostic fallback of `custom_root_finder`: among `left`, `right` and
the new candidate, return the one with smallest absolute value, scanning in the
source's order (`give = left`, then compare `right`, then `next`). -/
def bestCandidate (left right nxt : RootCand) : RootCand :=
  let give := left
  let give := if rabs right.value < rabs give.value then right else give
  let give := if rabs nxt.value < rabs give.value then nxt else give
  give

/-- The main iteration (`for i in range(max_iter)`) of `custom_root_finder`,
with the iteration budget as explicit fuel.  Fuel running out models the
`for` loop completing all `max_iter` iterations without hitting a `return`
statement, after which the Python function implicitly returns `None`
(`RFOutcome.exhausted`). -/
def rfLoop (f : ℚ → ℚ) (tol : ℚ) : ℕ → RootCand → RootCand → RFOutcome
  | 0, _, _ => .exhausted
  | n + 1, left, right =>
    let nextG := falsePositionStep left right
    let nextV := f nextG
    if rabs nextV < tol then .found nextG
    else if ¬ signPairTruthy left.value nextV then
      rfLoop f tol n left ⟨nextG, nextV⟩
    else if ¬ signPairTruthy nextV right.value then
      rfLoop f tol n ⟨nextG, nextV⟩ right
    else
      .closest (bestCandidate left right ⟨nextG, nextV⟩).guess

/-- Embedding of `custom_root_finder(f, x0, bracket, tol, args, max_iter)`.
The `cv.check_*` bracket validation at the top raises on a malformed bracket;
`openmc.checkvalue` is not part of the sources under study, so that check is
modelled from the spec (a bracket must be two increasing reals) as the
`Except.error` branch.  `args` merely forwards extra arguments to `f` and is
absorbed into `f` itself. -/
def customRootFinder (f : ℚ → ℚ) (x0 : ℚ) (bracket : ℚ × ℚ) (tol : ℚ)
    (maxIter : ℕ) : Except String RFOutcome :=
  if ¬ (bracket.1 < bracket.2) then .error "bracket values must be increasing"
  else .ok <|
    let start0 := f x0
    if rabs start0 < tol then .found x0
    else
      let startLeft := f bracket.1
      if rabs startLeft < tol then .found bracket.1
      else
        let (left, right) :=
          if start0 < startLeft then
            ((⟨x0, start0⟩ : RootCand), (⟨bracket.1, startLeft⟩ : RootCand))
          else
            ((⟨bracket.1, startLeft⟩ : RootCand), (⟨x0, start0⟩ : RootCand))
        if signPairTruthy left.value right.value then
          let startRight := f bracket.2
          if rabs startRight < tol then .found bracket.2
          else
            let nxt : RootCand := ⟨bracket.2, startRight⟩
            if ¬ signPairTruthy left.value nxt.value then
              rfLoop f tol maxIter left nxt
            else if ¬ signPairTruthy nxt.value right.value then
              rfLoop f tol maxIter nxt right
            else
              .closest (bestCandidate left right nxt).guess
        else
          rfLoop f tol maxIter left right

/-- Decidable transcript predicate for claim C4: along `n` iterations of the
main loop, the tolerance test `np.abs(f(next)) < tol` never fires and each
iteration's sign test succeeds in replacing exactly one endpoint (so neither
the `return next.guess` nor the diagnostic `else` branch is taken). -/
def loopStuckB (f : ℚ → ℚ) (tol : ℚ) : ℕ → RootCand → RootCand → Bool
  | 0, _, _ => true
  | n + 1, left, right =>
    let nextG := falsePositionStep left right
    let nextV := f nextG
    ¬ (rabs nextV < tol) &&
      (if ¬ signPairTruthy left.value nextV then
        loopStuckB f tol n left ⟨nextG, nextV⟩
      else if ¬ signPairTruthy nextV right.value then
        loopStuckB f tol n ⟨nextG, nextV⟩ right
      else false)

/-! ## Adaptive concentration controller
(`openmc/deplete/coupled_operator.py`, `CoupledOperator.search_crit_conc`) -/

/-- Dynamic numeric-ish Python value, as passed by a caller for the
`initial_value` / `batches` / `bracket` arguments.  `numbers.Real` covers
`int` and `float`; `numbers.Integral` covers `int` only. -/
inductive PyVal where
  | pyInt (n : ℤ)
  | pyFloat (q : ℚ)
  | pyStr (s : String)
deriving DecidableEq

/-- Python `isinstance(v, numbers.Real)`. -/
def PyVal.isReal : PyVal → Bool
  | .pyInt _ => true
  | .pyFloat _ => true
  | .pyStr _ => false

/-- Python `isinstance(v, numbers.Integral)`. -/
def PyVal.isIntegral : PyVal → Bool
  | .pyInt _ => true
  | .pyFloat _ => false
  | .pyStr _ => false

/-- Numeric value of a `PyVal` (strings never reach a numeric comparison on
the validated paths; they are mapped to `0`). -/
def PyVal.toRat : PyVal → ℚ
  | .pyInt n => (n : ℚ)
  | .pyFloat q => q
  | .pyStr _ => 0

/-- Embedding of the argument validation at the top of `search_crit_conc`
(the `raise ValueError` / `cv.check_*` block).  The order of the checks
mirrors the source: `iso`, then `initial_value`, then `batches`, then the
optional `bracket`.  `openmc.checkvalue` itself is not among the sources
under study; `check_type`, `check_iterable_type`, `check_length` and
`check_less_than` are modelled from the spec (type check against the given
numeric class, length check, strict `lower < upper` check, each raising on
failure). -/
def validateArgs (iso : Option (List String)) (initialValue : Option PyVal)
    (batches : Option PyVal) (bracket : Option (List PyVal)) :
    Except String Unit :=
  match iso with
  | none => .error "iso argument is empty"
  | some _ =>
    match initialValue with
    | none => .error "initial_value argument is empty"
    | some v =>
      if ¬ v.isReal then .error "initial_value must be Real"
      else
        match batches with
        | none => .error "batches argument is empty"
        | some b =>
          if ¬ b.isIntegral then .error "batches must be Integral"
          else
            match bracket with
            | none => .ok ()
            | some br =>
              if ¬ br.all PyVal.isReal then .error "bracket must be Real"
              else
                match br with
                | [lo, hi] =>
                  if lo.toRat < hi.toRat then .ok ()
                  else .error "bracket values must be increasing"
                | _ => .error "bracket must have length 2"

/-- The per-batch tally readings the controller extracts from the transport
engine in one inactive batch: the decomposed neutron balance (lines computing
`P_fiss_prompt` .. `L_abs_nucs`) together with the measurement weight
`p_measure`.  In the source `p_measure` is
`(np.absolute(k[0]-target)/target + 1/np.sqrt(particles))**2`, a value of the
external keff reading and the particle count; its inner formula involves a
floating square root of the particle count and is kept as a per-batch input
here, since no claim depends on its internal structure (only on its
positivity, which holds because `1/np.sqrt(particles) > 0`). -/
structure BatchObs where
  pFissPrompt : ℚ
  pFissDelayed : ℚ
  pNxn : ℚ
  lLeak : ℚ
  lAbs : ℚ
  lAbsNucs : ℚ
  pMeasure : ℚ
deriving DecidableEq

/-- The instantaneous correction factor of one batch (source line
`corr = ((P_fiss_prompt/target + P_fiss_delayed + P_nxn) * (1-L_leak) - (L_abs-L_abs_nucs)) / L_abs_nucs`). -/
def corrFormula (target pFissPrompt pFissDelayed pNxn lLeak lAbs lAbsNucs : ℚ) : ℚ :=
  ((pFissPrompt / target + pFissDelayed + pNxn) * (1 - lLeak) - (lAbs - lAbsNucs)) / lAbsNucs

/-- The clamp `g = corr; if g <= 0: g = 0.5`. -/
def clampCorr (c : ℚ) : ℚ :=
  if c ≤ 0 then 1/2 else c

/-- The clamped correction factor computed from one batch's tally readings. -/
def batchFactor (target : ℚ) (o : BatchObs) : ℚ :=
  clampCorr (corrFormula target o.pFissPrompt o.pFissDelayed o.pNxn o.lLeak o.lAbs o.lAbsNucs)

/-- The fused precision of the non-first branch: `p_n = 1/(1/p + 1/p_measure)`. -/
def fusePrecision (p pMeasure : ℚ) : ℚ :=
  1 / (1 / p + 1 / pMeasure)

/-- State of the inverse-variance fusion across the inactive batches.  Before
the loop the source sets `f = 1`, `f_prev = 1`; `x` and `p` are only assigned
inside the first batch (`first = true` plays the role of the `M == 1` test,
which holds exactly on the first correction batch), so their initial values
here are unused dummies. -/
structure FuseState where
  x : ℚ
  p : ℚ
  fPrev : ℚ
  f : ℚ
  first : Bool
deriving DecidableEq

/-- Fusion state at loop entry. -/
def fuseInit : FuseState :=
  { x := 0, p := 0, fPrev := 1, f := 1, first := true }

/-- One inactive-batch update of the fusion state (source lines from
`z = f_prev * g` through `f_prev = f`), given the already-clamped correction
factor `cc` and the batch's measurement weight `pm`.  Returns the new state
together with the multiplicative factor `g = f / f_prev` that the batch
applies to the tracked densities. -/
def fuseStep (s : FuseState) (cc pm : ℚ) : FuseState × ℚ :=
  let z := s.fPrev * cc
  let x0 := if s.first then 0 else s.x
  let p0 := if s.first then pm else s.p
  let pn := if s.first then pm else fusePrecision s.p pm
  let x1 := x0 + pn / p0 * (z - x0)
  let f1 := x1
  let g1 := f1 / s.fPrev
  ({ x := x1, p := pn, fPrev := f1, f := f1, first := false }, g1)

/-- The density floor `1e-36` below which a nuclide is dropped from the
rescaled density list. -/
def densityFloor : ℚ :=
  1 / 10 ^ 36

/-- A material's `(nuclide, density)` pairs as read from
`openmc.lib.materials`. -/
abbrev Material := List (String × ℚ)

/-- Per-nuclide density update of one inactive batch (the
`for nuc in all_nuc` body): a density at or below `1e-36` is dropped,
a tracked nuclide above the floor is scaled by `g`, any other nuclide above
the floor is kept unchanged. -/
def updateNuclide (iso : List String) (g : ℚ) : String × ℚ → Option (String × ℚ)
  | (nuc, val) =>
    if densityFloor < val then
      some (nuc, if nuc ∈ iso then val * g else val)
    else none

/-- Density update of one inactive batch over all materials (the
`for mat in openmc.lib.materials` loop followed by `set_densities`). -/
def updateMaterials (iso : List String) (g : ℚ) (mats : List Material) : List Material :=
  mats.map (fun m => m.filterMap (updateNuclide iso g))

/-- The correction loop over the inactive batches (`M < batches` branch of
the batch iteration): each batch reads its tally observations, updates the
fusion state, and rescales the tracked densities by that batch's factor. -/
def runBatches (target : ℚ) (iso : List String) :
    List BatchObs → FuseState → List Material → FuseState × List Material
  | [], s, mats => (s, mats)
  | o :: rest, s, mats =>
    let sg := fuseStep s (batchFactor target o) o.pMeasure
    runBatches target iso rest sg.1 (updateMaterials iso sg.2 mats)

/-- Persistent controller state on the owning operator object:
`self.initial_value` and `self.concs` (lazily created via `hasattr`, hence
`Option`), plus the `self.reaction_rates` template whose shape the zero-rate
short circuit copies and fills with `0.0`. -/
structure SCCSelf where
  initialValue : Option ℚ
  concs : List ℚ
  reactionRates : List ℚ
deriving DecidableEq

/-- Readings supplied by the external transport collaborator during one
`search_crit_conc` call: the tally observations of each inactive correction
batch (batches `M = 1 .. batches-1`), the final eigenvalue read by
`openmc.lib.keff()` after the run, the reaction rates computed by
`self._calculate_reaction_rates(source_rate)`, and the number of transport
batches the engine executes. -/
structure SCCEnv where
  obs : List BatchObs
  finalKeff : ℚ × ℚ
  computedRates : List ℚ
  totalBatches : ℕ
deriving DecidableEq

/-- The `OperatorResult(ufloat(keff_mean, keff_std), rates)` pair returned to
the caller. -/
structure OpResult where
  keff : ℚ × ℚ
  rates : List ℚ
deriving DecidableEq

/-- Full outcome of one `search_crit_conc` call: the returned value (or the
raised exception as `Except.error`), the controller state afterwards, the
material densities afterwards, and how many transport batches ran. -/
structure SCCOutput where
  result : Except String OpResult
  selfSt : SCCSelf
  mats : List Material
  transportBatches : ℕ

/-- `true` exactly on the exception outcomes. -/
def isErr {α : Type} : Except String α → Bool
  | .error _ => true
  | .ok _ => false

/-- The reference density effectively used by the run: the persistent
`self.initial_value` when already present, otherwise the `initial_value`
argument (which the `hasattr` block then installs). -/
def effInitialValue (selfSt : SCCSelf) (ivArg : ℚ) : ℚ :=
  selfSt.initialValue.getD ivArg

/-- Embedding of `CoupledOperator.search_crit_conc`.  Control flow mirrors
the source: validate the arguments; short-circuit with a zeroed
`OperatorResult` when `source_rate == 0`; lazily install the persistent
`initial_value`/`concs` attributes; run the inactive-batch correction loop;
multiply `self.initial_value` by the fused factor `f` and append it to
`self.concs`; return the final eigenvalue with the computed reaction rates.
The export of the depletion vector `vec` into material XML before the run and
the final Python-side density synchronisation are bookkeeping around the
external collaborator and are not modelled; the densities tracked here are
the `openmc.lib.materials` densities the correction loop rescales. -/
def searchCritConc (iso : Option (List String)) (sourceRate : ℚ)
    (batchesArg : Option PyVal) (bracketArg : Option (List PyVal))
    (initialValueArg : Option PyVal) (target : ℚ)
    (selfSt : SCCSelf) (mats : List Material) (env : SCCEnv) : SCCOutput :=
  match validateArgs iso initialValueArg batchesArg bracketArg with
  | .error e => { result := .error e, selfSt := selfSt, mats := mats, transportBatches := 0 }
  | .ok () =>
    if sourceRate = 0 then
      { result := .ok { keff := (0, 0), rates := selfSt.reactionRates.map (fun _ => 0) }
        selfSt := selfSt, mats := mats, transportBatches := 0 }
    else
      let ivArg := (initialValueArg.getD (.pyFloat 0)).toRat
      let self1 : SCCSelf :=
        match selfSt.initialValue with
        | some _ => selfSt
        | none => { selfSt with initialValue := some ivArg, concs := [ivArg] }
      let iv := effInitialValue selfSt ivArg
      let run := runBatches target (iso.getD []) env.obs fuseInit mats
      let newIV := iv * run.1.f
      let self2 : SCCSelf :=
        { self1 with initialValue := some newIV, concs := self1.concs ++ [newIV] }
      { result := .ok { keff := env.finalKeff, rates := env.computedRates }
        selfSt := self2, mats := run.2, transportBatches := env.totalBatches }

/-- Fail-fast outcome of a `search_crit_conc` call: an exception reached the
caller, the controller state and the material densities are untouched, and no
transport batch ran. -/
def failsFast (out : SCCOutput) (selfSt : SCCSelf) (mats : List Material) : Prop :=
  isErr out.result = true ∧ out.selfSt = selfSt ∧ out.mats = mats ∧
    out.transportBatches = 0

/-- Positivity invariant of the fusion state: the factors `f_prev` and `f`
are positive, and once the first batch has run the running precision is
positive and the running estimate coincides with `f`. -/
def FusePos (s : FuseState) : Prop :=
  0 < s.fPrev ∧ 0 < s.f ∧ (s.first = false → 0 < s.p ∧ s.x = s.f)

/-! ## Theorems -/

theorem clampCorr_pos (c : ℚ) : 0 < clampCorr c := by
  unfold clampCorr
  split
  · norm_num
  · linarith [not_le.mp (by assumption : ¬ c ≤ 0)]

theorem fusePrecision_pos {p pm : ℚ} (hp : 0 < p) (hpm : 0 < pm) :
    0 < fusePrecision p pm := by
  unfold fusePrecision
  positivity

theorem fusePrecision_lt_left {p pm : ℚ} (hp : 0 < p) (hpm : 0 < pm) :
    fusePrecision p pm < p := by
  unfold fusePrecision
  have h1 : (0 : ℚ) < 1 / p := by positivity
  have h2 : 1 / p < 1 / p + 1 / pm := by
    have : (0 : ℚ) < 1 / pm := by positivity
    linarith
  calc 1 / (1 / p + 1 / pm) < 1 / (1 / p) := one_div_lt_one_div_of_lt h1 h2
    _ = p := one_div_one_div p

theorem fuseStep_fusePos {s : FuseState} {cc pm : ℚ} (hcc : 0 < cc)
    (hpm : 0 < pm) (hs : FusePos s) : FusePos (fuseStep s cc pm).1 := by
  obtain ⟨hfp, hf, hrest⟩ := hs
  have hz : 0 < s.fPrev * cc := mul_pos hfp hcc
  by_cases hfirst : s.first
  · refine ⟨?_, ?_, ?_⟩ <;>
      simp [fuseStep, hfirst, div_self (ne_of_gt hpm)] <;> [exact hz; exact hz; exact hpm]
  · obtain ⟨hp, hx⟩ := hrest (by simpa using hfirst)
    have hpn : 0 < fusePrecision s.p pm := fusePrecision_pos hp hpm
    have hplt : fusePrecision s.p pm < s.p := fusePrecision_lt_left hp hpm
    have hratio0 : 0 < fusePrecision s.p pm / s.p := div_pos hpn hp
    have hratio1 : fusePrecision s.p pm / s.p < 1 := (div_lt_one hp).mpr hplt
    have hxpos : 0 < s.x := hx ▸ hf
    have hx1 : 0 < s.x + fusePrecision s.p pm / s.p * (s.fPrev * cc - s.x) := by
      have hrw : s.x + fusePrecision s.p pm / s.p * (s.fPrev * cc - s.x)
          = (1 - fusePrecision s.p pm / s.p) * s.x
            + fusePrecision s.p pm / s.p * (s.fPrev * cc) := by ring
      rw [hrw]
      have t1 : 0 < (1 - fusePrecision s.p pm / s.p) * s.x :=
        mul_pos (by linarith) hxpos
      have t2 : 0 < fusePrecision s.p pm / s.p * (s.fPrev * cc) :=
        mul_pos hratio0 hz
      linarith
    refine ⟨?_, ?_, ?_⟩ <;> simp [fuseStep, hfirst]
    · exact hx1
    · exact hx1
    · exact hpn

theorem runBatches_fusePos (target : ℚ) (iso : List String) :
    ∀ (obs : List BatchObs) (s : FuseState) (mats : List Material),
      FusePos s → (∀ o ∈ obs, 0 < o.pMeasure) →
      FusePos (runBatches target iso obs s mats).1 := by
  intro obs
  induction obs with
  | nil => intro s mats hs _; simpa [runBatches] using hs
  | cons o rest ih =>
    intro s mats hs hobs
    rw [runBatches]
    exact ih _ _
      (fuseStep_fusePos (clampCorr_pos _) (hobs o (by simp)) hs)
      (fun o' ho' => hobs o' (by simp [ho']))

/-- C5: after the first batch, the fused precision
`p_n = 1/(1/p + 1/p_measure)` adopted by the batch update never exceeds
either of the two quantities it fuses: `p_n <= min(p, p_measure)` whenever
both are positive. -/
theorem claim_C5 (s : FuseState) (cc pm : ℚ) (hfirst : s.first = false)
    (hp : 0 < s.p) (hpm : 0 < pm) :
    (fuseStep s cc pm).1.p ≤ min s.p pm := by
  have h1 : fusePrecision s.p pm ≤ s.p := le_of_lt (fusePrecision_lt_left hp hpm)
  have h2 : fusePrecision s.p pm ≤ pm := by
    have := fusePrecision_lt_left hpm hp
    unfold fusePrecision at this ⊢
    rw [add_comm]
    exact le_of_lt this
  simp [fuseStep, hfirst]
  exact ⟨h1, h2⟩

/-- Witness for C5 at a concrete post-first-batch state (`p = 1`,
`p_measure = 3`). -/
theorem claim_C5_witness :
    (fuseStep { x := 2, p := 1, fPrev := 2, f := 2, first := false } 3 3).1.p
      ≤ min (1 : ℚ) 3 :=
  claim_C5 { x := 2, p := 1, fPrev := 2, f := 2, first := false } 3 3 rfl
    (by norm_num) (by norm_num)

/-- C1 counterexample: the claimed update
`running_estimate += (running_precision_new / p_measure) * (z - running_estimate)`
is false for the code.  Take the state reached after a first batch with
clamped correction `2` and `p_measure = 1` (so `x = 2`, `p = 1`, `f_prev = 2`)
and a second batch with clamped correction `3` and `p_measure = 3` (so
`z = 6`, `p_n = 3/4`): the source computes `x + p_n/p * (z - x) = 5`, while
the claimed recursion demands `x + p_n/p_measure * (z - x) = 3`. -/
theorem claim_C1_counterexample :
    (fuseStep (fuseStep fuseInit 2 1).1 3 3).1.x ≠
      (fuseStep fuseInit 2 1).1.x
        + fusePrecision (fuseStep fuseInit 2 1).1.p 3 / 3
          * ((fuseStep fuseInit 2 1).1.fPrev * 3 - (fuseStep fuseInit 2 1).1.x) := by
  norm_num [fuseStep, fuseInit, fusePrecision]

/-- C1 (amended): in `search_crit_conc`, the batch observation
`z = f_prev * corr` (with `corr` already clamped) is fused as follows: on the
first batch the estimate is initialized to `z` and the precision to
`p_measure`; thereafter the new precision is
`p_n = 1/(1/p + 1/p_measure)` and the estimate is updated by
`x += (p_n / p) * (z - x)` — the gain divides by the previous running
precision `p`, not by `p_measure` as the spec states. -/
theorem claim_C1_amended (s : FuseState) (cc pm : ℚ) (hpm : 0 < pm) :
    (s.first = true →
      (fuseStep s cc pm).1.x = s.fPrev * cc ∧ (fuseStep s cc pm).1.p = pm) ∧
    (s.first = false →
      (fuseStep s cc pm).1.x
          = s.x + fusePrecision s.p pm / s.p * (s.fPrev * cc - s.x) ∧
        (fuseStep s cc pm).1.p = fusePrecision s.p pm) := by
  constructor
  · intro h
    constructor
    · simp [fuseStep, h, div_self (ne_of_gt hpm)]
    · simp [fuseStep, h]
  · intro h
    constructor
    · simp [fuseStep, h]
    · simp [fuseStep, h]

/-- Witness for C1 (amended) at the first batch: with `f_prev = 1`,
clamped correction `2` and `p_measure = 1`, the estimate initializes to
`z = 2` and the precision to `1`. -/
theorem claim_C1_witness :
    (0 : ℚ) < 1 ∧
      ((fuseStep fuseInit 2 1).1.x = fuseInit.fPrev * 2 ∧
        (fuseStep fuseInit 2 1).1.p = 1) :=
  ⟨by norm_num, (claim_C1_amended fuseInit 2 1 (by norm_num)).1 rfl⟩

/-- C7: in every inactive batch, the correction factor is
`corr = ((P_prompt/target + P_delayed + P_nxn) * (1 - L_leak) - (L_abs - L_abs_nucs)) / L_abs_nucs`
computed from that batch's tally deltas, clamped to exactly `0.5` whenever it
is `<= 0`; and the correction loop feeds exactly this factor, together with
the batch's `p_measure`, into the fusion step before rescaling the densities. -/
theorem claim_C7 (target : ℚ) (o : BatchObs) (iso : List String)
    (rest : List BatchObs) (s : FuseState) (mats : List Material) :
    batchFactor target o =
      (if ((o.pFissPrompt / target + o.pFissDelayed + o.pNxn) * (1 - o.lLeak)
            - (o.lAbs - o.lAbsNucs)) / o.lAbsNucs ≤ 0 then 1/2
       else ((o.pFissPrompt / target + o.pFissDelayed + o.pNxn) * (1 - o.lLeak)
            - (o.lAbs - o.lAbsNucs)) / o.lAbsNucs) ∧
    runBatches target iso (o :: rest) s mats =
      runBatches target iso rest (fuseStep s (batchFactor target o) o.pMeasure).1
        (updateMaterials iso (fuseStep s (batchFactor target o) o.pMeasure).2 mats) :=
  ⟨rfl, rfl⟩

/-- C8: the per-batch density update drops any nuclide at or below the
`1e-36` floor, multiplies a tracked nuclide above the floor by the batch
factor `g`, and keeps a non-tracked nuclide above the floor unchanged. -/
theorem claim_C8 (iso : List String) (g : ℚ) (nuc : String) (val : ℚ) :
    (val ≤ densityFloor → updateNuclide iso g (nuc, val) = none) ∧
    (densityFloor < val → nuc ∈ iso →
      updateNuclide iso g (nuc, val) = some (nuc, val * g)) ∧
    (densityFloor < val → nuc ∉ iso →
      updateNuclide iso g (nuc, val) = some (nuc, val)) := by
  refine ⟨fun h => ?_, fun h hm => ?_, fun h hm => ?_⟩
  · simp [updateNuclide, not_lt.mpr h]
  · simp [updateNuclide, h, hm]
  · simp [updateNuclide, h, hm]

/-- Witness for C8 at the spec's concrete inputs: density `5e-37` is dropped;
a tracked nuclide at `2e-36` with `g = 1.1` becomes `2.2e-36`; a non-tracked
nuclide at `2e-36` is unchanged. -/
theorem claim_C8_witness :
    ((5 : ℚ)/10^37 ≤ densityFloor ∧
      updateNuclide ["B10"] (11/10) ("B10", 5/10^37) = none) ∧
    (densityFloor < (2 : ℚ)/10^36 ∧
      updateNuclide ["B10"] (11/10) ("B10", 2/10^36)
        = some ("B10", 2/10^36 * (11/10))) ∧
    (densityFloor < (2 : ℚ)/10^36 ∧
      updateNuclide ["B10"] (11/10) ("U235", 2/10^36)
        = some ("U235", 2/10^36)) :=
  ⟨⟨by norm_num [densityFloor],
      (claim_C8 ["B10"] (11/10) "B10" (5/10^37)).1 (by norm_num [densityFloor])⟩,
    ⟨by norm_num [densityFloor],
      (claim_C8 ["B10"] (11/10) "B10" (2/10^36)).2.1
        (by norm_num [densityFloor]) (by simp)⟩,
    ⟨by norm_num [densityFloor],
      (claim_C8 ["B10"] (11/10) "U235" (2/10^36)).2.2
        (by norm_num [densityFloor]) (by simp)⟩⟩

/-- C3: with valid arguments and `source_rate == 0`, `search_crit_conc`
returns an `OperatorResult` with eigenvalue exactly zero, zero uncertainty
and all-zero reaction rates, runs no transport batch, and leaves the
controller state and every material density unchanged. -/
theorem claim_C3 (iso : Option (List String)) (batchesArg : Option PyVal)
    (bracketArg : Option (List PyVal)) (initialValueArg : Option PyVal)
    (target : ℚ) (selfSt : SCCSelf) (mats : List Material) (env : SCCEnv)
    (hval : validateArgs iso initialValueArg batchesArg bracketArg = .ok ()) :
    (searchCritConc iso 0 batchesArg bracketArg initialValueArg target selfSt
        mats env).result
      = .ok { keff := (0, 0), rates := selfSt.reactionRates.map (fun _ => 0) } ∧
    (∀ r ∈ selfSt.reactionRates.map (fun _ => (0 : ℚ)), r = 0) ∧
    (searchCritConc iso 0 batchesArg bracketArg initialValueArg target selfSt
        mats env).selfSt = selfSt ∧
    (searchCritConc iso 0 batchesArg bracketArg initialValueArg target selfSt
        mats env).mats = mats ∧
    (searchCritConc iso 0 batchesArg bracketArg initialValueArg target selfSt
        mats env).transportBatches = 0 := by
  refine ⟨?_, ?_, ?_, ?_, ?_⟩ <;> simp [searchCritConc, hval]

/-- Witness for C3 at a concrete valid call with `source_rate = 0`. -/
theorem claim_C3_witness :
    (searchCritConc (some ["B10"]) 0 (some (.pyInt 10)) none (some (.pyFloat 5))
        1 ⟨some 2, [2], [1, 2]⟩ [[("B10", 1)]] ⟨[], (1, 0), [3], 7⟩).result
      = .ok { keff := (0, 0),
              rates := (⟨some 2, [2], [1, 2]⟩ : SCCSelf).reactionRates.map (fun _ => 0) } ∧
    (∀ r ∈ (⟨some 2, [2], [1, 2]⟩ : SCCSelf).reactionRates.map (fun _ => (0 : ℚ)), r = 0) ∧
    (searchCritConc (some ["B10"]) 0 (some (.pyInt 10)) none (some (.pyFloat 5))
        1 ⟨some 2, [2], [1, 2]⟩ [[("B10", 1)]] ⟨[], (1, 0), [3], 7⟩).selfSt
      = ⟨some 2, [2], [1, 2]⟩ ∧
    (searchCritConc (some ["B10"]) 0 (some (.pyInt 10)) none (some (.pyFloat 5))
        1 ⟨some 2, [2], [1, 2]⟩ [[("B10", 1)]] ⟨[], (1, 0), [3], 7⟩).mats
      = [[("B10", 1)]] ∧
    (searchCritConc (some ["B10"]) 0 (some (.pyInt 10)) none (some (.pyFloat 5))
        1 ⟨some 2, [2], [1, 2]⟩ [[("B10", 1)]] ⟨[], (1, 0), [3], 7⟩).transportBatches = 0 :=
  claim_C3 (some ["B10"]) (some (.pyInt 10)) none (some (.pyFloat 5)) 1
    ⟨some 2, [2], [1, 2]⟩ [[("B10", 1)]] ⟨[], (1, 0), [3], 7⟩ rfl

/-- C2 counterexample: two calls the claim says must raise do not raise.  A
call with an empty (zero-length) `iso` list passes validation (the source
only checks `iso is None`), and a call with a negative `initial_value`
passes validation (the source only type-checks it as `Real`); both proceed
to a normal, non-error result. -/
theorem claim_C2_counterexample :
    isErr (searchCritConc (some []) 1 (some (.pyInt 50)) none
        (some (.pyFloat 5)) 1 ⟨none, [], [1]⟩ [] ⟨[], (1, 0), [2], 3⟩).result
      = false ∧
    isErr (searchCritConc (some ["B10"]) 1 (some (.pyInt 50)) none
        (some (.pyFloat (-1))) 1 ⟨none, [], [1]⟩ [] ⟨[], (1, 0), [2], 3⟩).result
      = false := by
  constructor <;>
    norm_num [searchCritConc, validateArgs, PyVal.isReal, PyVal.isIntegral, isErr]

/-- C2 (amended): `search_crit_conc` fails fast — raising to the caller with
no transport run and no density or controller-state mutation — when `iso` is
missing (`None`), when `initial_value` or `batches` is missing, when
`initial_value` is not a `numbers.Real`, when `batches` is not a
`numbers.Integral` (e.g. a float or a string), or when `bracket` has a lower
bound not less than its upper bound.  Unlike the original claim, an *empty*
`iso` list and a *non-positive* real `initial_value` are not rejected: the
source checks only `iso is None` and only the type of `initial_value`. -/
theorem claim_C2_amended (iso : Option (List String)) (sourceRate : ℚ)
    (batchesArg : Option PyVal) (bracketArg : Option (List PyVal))
    (initialValueArg : Option PyVal) (target : ℚ) (selfSt : SCCSelf)
    (mats : List Material) (env : SCCEnv) :
    (iso = none →
      failsFast (searchCritConc iso sourceRate batchesArg bracketArg
        initialValueArg target selfSt mats env) selfSt mats) ∧
    (initialValueArg = none →
      failsFast (searchCritConc iso sourceRate batchesArg bracketArg
        initialValueArg target selfSt mats env) selfSt mats) ∧
    (batchesArg = none →
      failsFast (searchCritConc iso sourceRate batchesArg bracketArg
        initialValueArg target selfSt mats env) selfSt mats) ∧
    (∀ v, initialValueArg = some v → v.isReal = false →
      failsFast (searchCritConc iso sourceRate batchesArg bracketArg
        initialValueArg target selfSt mats env) selfSt mats) ∧
    (∀ b, batchesArg = some b → b.isIntegral = false →
      failsFast (searchCritConc iso sourceRate batchesArg bracketArg
        initialValueArg target selfSt mats env) selfSt mats) ∧
    (∀ lo hi, bracketArg = some [lo, hi] → hi.toRat ≤ lo.toRat →
      failsFast (searchCritConc iso sourceRate batchesArg bracketArg
        initialValueArg target selfSt mats env) selfSt mats) := by
  have key : ∀ e, validateArgs iso initialValueArg batchesArg bracketArg = .error e →
      failsFast (searchCritConc iso sourceRate batchesArg bracketArg
        initialValueArg target selfSt mats env) selfSt mats := by
    intro e he
    simp [searchCritConc, he, failsFast, isErr]
  refine ⟨?_, ?_, ?_, ?_, ?_, ?_⟩
  · intro h
    subst h
    exact key _ rfl
  · intro h
    subst h
    cases iso with
    | none => exact key _ rfl
    | some l => exact key _ rfl
  · intro h
    subst h
    cases iso with
    | none => exact key _ rfl
    | some l =>
      cases initialValueArg with
      | none => exact key _ rfl
      | some v =>
        cases v with
        | pyInt n => exact key _ rfl
        | pyFloat q => exact key _ rfl
        | pyStr s => exact key _ rfl
  · intro v hv hreal
    subst hv
    cases iso with
    | none => exact key _ rfl
    | some l =>
      cases v with
      | pyInt n => simp [PyVal.isReal] at hreal
      | pyFloat q => simp [PyVal.isReal] at hreal
      | pyStr s => exact key _ rfl
  · intro b hb hint
    subst hb
    cases iso with
    | none => exact key _ rfl
    | some l =>
      cases initialValueArg with
      | none => exact key _ rfl
      | some v =>
        cases v with
        | pyStr s => exact key _ rfl
        | pyInt n =>
          cases b with
          | pyInt m => simp [PyVal.isIntegral] at hint
          | pyFloat q => exact key _ rfl
          | pyStr t => exact key _ rfl
        | pyFloat q =>
          cases b with
          | pyInt m => simp [PyVal.isIntegral] at hint
          | pyFloat q2 => exact key _ rfl
          | pyStr t => exact key _ rfl
  · intro lo hi hbr hle
    subst hbr
    cases iso with
    | none => exact key _ rfl
    | some l =>
      cases initialValueArg with
      | none => exact key _ rfl
      | some v =>
        have hiv : v.isReal = true ∨ v.isReal = false := by
          cases v.isReal <;> simp
        rcases hiv with hiv | hiv
        · cases batchesArg with
          | none =>
            apply key "batches argument is empty"
            simp [validateArgs, hiv]
          | some b =>
            have hbi : b.isIntegral = true ∨ b.isIntegral = false := by
              cases b.isIntegral <;> simp
            rcases hbi with hbi | hbi
            · have hall : [lo, hi].all PyVal.isReal = true ∨
                  [lo, hi].all PyVal.isReal = false := by
                cases [lo, hi].all PyVal.isReal <;> simp
              rcases hall with hall | hall
              · apply key "bracket values must be increasing"
                simp [validateArgs, hiv, hbi, hall, not_lt.mpr hle]
              · apply key "bracket must be Real"
                simp [validateArgs, hiv, hbi, hall]
            · apply key "batches must be Integral"
              simp [validateArgs, hiv, hbi]
        · apply key "initial_value must be Real"
          simp [validateArgs, hiv]

/-- Witness for C2 (amended): a call with `iso = None` fails fast. -/
theorem claim_C2_witness :
    failsFast (searchCritConc none 1 (some (.pyInt 50)) none (some (.pyFloat 5))
        1 ⟨some 2, [2], [1]⟩ [] ⟨[], (1, 0), [2], 3⟩) ⟨some 2, [2], [1]⟩ [] :=
  (claim_C2_amended none 1 (some (.pyInt 50)) none (some (.pyFloat 5)) 1
    ⟨some 2, [2], [1]⟩ [] ⟨[], (1, 0), [2], 3⟩).1 rfl

/-- C6: a run of `search_crit_conc` with valid arguments, a nonzero source
rate, a positive effective reference density and positive per-batch
measurement weights ends with `self.initial_value` multiplied by the fused
factor `f`, still positive (the clamp keeps every batch factor positive, so
every observation `z` and hence the running estimate stays positive), and
appends the new positive value to the concentration history `self.concs`. -/
theorem claim_C6 (iso : Option (List String)) (sourceRate : ℚ)
    (batchesArg : Option PyVal) (bracketArg : Option (List PyVal))
    (initialValueArg : Option PyVal) (target : ℚ) (selfSt : SCCSelf)
    (mats : List Material) (env : SCCEnv)
    (hval : validateArgs iso initialValueArg batchesArg bracketArg = .ok ())
    (hsr : sourceRate ≠ 0)
    (hiv : 0 < effInitialValue selfSt (initialValueArg.getD (.pyFloat 0)).toRat)
    (hobs : ∀ o ∈ env.obs, 0 < o.pMeasure) :
    (searchCritConc iso sourceRate batchesArg bracketArg initialValueArg target
        selfSt mats env).selfSt.initialValue
      = some (effInitialValue selfSt (initialValueArg.getD (.pyFloat 0)).toRat
          * (runBatches target (iso.getD []) env.obs fuseInit mats).1.f) ∧
    0 < effInitialValue selfSt (initialValueArg.getD (.pyFloat 0)).toRat
      * (runBatches target (iso.getD []) env.obs fuseInit mats).1.f ∧
    (searchCritConc iso sourceRate batchesArg bracketArg initialValueArg target
        selfSt mats env).selfSt.concs
      = (match selfSt.initialValue with
          | some _ => selfSt.concs
          | none => [(initialValueArg.getD (.pyFloat 0)).toRat]) ++
        [effInitialValue selfSt (initialValueArg.getD (.pyFloat 0)).toRat
          * (runBatches target (iso.getD []) env.obs fuseInit mats).1.f] := by
  have hpos : FusePos (runBatches target (iso.getD []) env.obs fuseInit mats).1 :=
    runBatches_fusePos target (iso.getD []) env.obs fuseInit mats
      ⟨one_pos, one_pos, by simp [fuseInit]⟩ hobs
  have hnew : 0 < effInitialValue selfSt (initialValueArg.getD (.pyFloat 0)).toRat
      * (runBatches target (iso.getD []) env.obs fuseInit mats).1.f :=
    mul_pos hiv hpos.2.1
  refine ⟨?_, hnew, ?_⟩ <;>
    cases h : selfSt.initialValue <;>
      simp [searchCritConc, hval, hsr, effInitialValue, h]

/-- Witness for C6: a first call with `initial_value = 5` and one inactive
batch whose tallies give a clamped correction `2` with `p_measure = 1`, so
the fused factor is `2` and the stored density becomes `10 > 0`, appended to
the history. -/
theorem claim_C6_witness :
    (searchCritConc (some ["B10"]) 1 (some (.pyInt 2)) none (some (.pyFloat 5))
        1 ⟨none, [], [1]⟩ [[("B10", 1)]]
        ⟨[⟨2, 0, 0, 0, 1, 1, 1⟩], (1, 0), [3], 2⟩).selfSt.initialValue
      = some (effInitialValue ⟨none, [], [1]⟩
            ((some (PyVal.pyFloat 5)).getD (.pyFloat 0)).toRat
          * (runBatches 1 ((some ["B10"]).getD []) [⟨2, 0, 0, 0, 1, 1, 1⟩]
              fuseInit [[("B10", 1)]]).1.f) ∧
    0 < effInitialValue ⟨none, [], [1]⟩
          ((some (PyVal.pyFloat 5)).getD (.pyFloat 0)).toRat
        * (runBatches 1 ((some ["B10"]).getD []) [⟨2, 0, 0, 0, 1, 1, 1⟩]
            fuseInit [[("B10", 1)]]).1.f ∧
    (searchCritConc (some ["B10"]) 1 (some (.pyInt 2)) none (some (.pyFloat 5))
        1 ⟨none, [], [1]⟩ [[("B10", 1)]]
        ⟨[⟨2, 0, 0, 0, 1, 1, 1⟩], (1, 0), [3], 2⟩).selfSt.concs
      = (match (⟨none, [], [1]⟩ : SCCSelf).initialValue with
          | some _ => (⟨none, [], [1]⟩ : SCCSelf).concs
          | none => [((some (PyVal.pyFloat 5)).getD (.pyFloat 0)).toRat]) ++
        [effInitialValue ⟨none, [], [1]⟩
            ((some (PyVal.pyFloat 5)).getD (.pyFloat 0)).toRat
          * (runBatches 1 ((some ["B10"]).getD []) [⟨2, 0, 0, 0, 1, 1, 1⟩]
              fuseInit [[("B10", 1)]]).1.f] :=
  claim_C6 (some ["B10"]) 1 (some (.pyInt 2)) none (some (.pyFloat 5)) 1
    ⟨none, [], [1]⟩ [[("B10", 1)]] ⟨[⟨2, 0, 0, 0, 1, 1, 1⟩], (1, 0), [3], 2⟩
    rfl (by norm_num)
    (by norm_num [effInitialValue, PyVal.toRat])
    (by intro o ho; simp at ho; subst ho; norm_num)

/-- C4: whenever the main iteration of `custom_root_finder` runs for
`max_iter` consecutive iterations in which the tolerance test never fires
while each iteration's sign test succeeds in replacing one endpoint
(the transcript predicate `loopStuckB`), the loop is exhausted and the
function produces no explicit result: it falls through without a `return`,
yielding Python's implicit `None` (modelled as `RFOutcome.exhausted`). -/
theorem claim_C4 (f : ℚ → ℚ) (tol : ℚ) (n : ℕ) (l r : RootCand)
    (h : loopStuckB f tol n l r = true) :
    rfLoop f tol n l r = .exhausted := by
  induction n generalizing l r with
  | zero => rfl
  | succ n ih =>
    rw [loopStuckB] at h
    rw [rfLoop]
    simp only [Bool.and_eq_true] at h
    obtain ⟨htol, hbranch⟩ := h
    rw [if_neg (by simpa using htol)]
    split at hbranch
    · rw [if_pos (by assumption)]
      exact ih _ _ hbranch
    · split at hbranch
      · rw [if_neg (by assumption), if_pos (by assumption)]
        exact ih _ _ hbranch
      · exact absurd hbranch (by simp)

/-- Witness for C4: for `f(x) = x^2 - 2` (irrational root, so no rational
iterate ever meets a zero tolerance) on the bracket candidates
`(1, -1)` and `(2, 2)`, two iterations run, each replacing an endpoint, and
the loop exhausts with no explicit result. -/
theorem claim_C4_witness :
    loopStuckB (fun x => x * x - 2) 0 2 ⟨1, -1⟩ ⟨2, 2⟩ = true ∧
    rfLoop (fun x => x * x - 2) 0 2 ⟨1, -1⟩ ⟨2, 2⟩ = .exhausted :=
  ⟨by norm_num [loopStuckB, falsePositionStep, signPairTruthy, sgn, rabs],
    claim_C4 (fun x => x * x - 2) 0 2 ⟨1, -1⟩ ⟨2, 2⟩
      (by norm_num [loopStuckB, falsePositionStep, signPairTruthy, sgn, rabs])⟩

/-- One-step evaluation of the main loop: when the false-position iterate
lands within tolerance, the loop returns it. -/
theorem rfLoop_succ_found {f : ℚ → ℚ} {tol : ℚ} {n : ℕ} {l r : RootCand}
    {g : ℚ} (hg : falsePositionStep l r = g) (h : rabs (f g) < tol) :
    rfLoop f tol (n + 1) l r = .found g := by
  simp only [rfLoop, hg]
  rw [if_pos h]

/-- C9: for the linear increasing objective `f(x) = x - 5` with bracket
`[0, 10]`, `x0 = 1` and `tol = 1e-3`, `custom_root_finder` returns `x* = 5`
with `np.abs(f(x*)) < tol` within the iteration budget; the returned point is
exactly the false-position iterate
`left.guess + (right.guess - left.guess) * np.abs(left.value) / (np.abs(left.value) + np.abs(right.value))`
of the sign-changing bracket `(0, -5), (10, 5)` established by the repair
phase. -/
theorem claim_C9 :
    customRootFinder (fun x => x - 5) 1 (0, 10) (1/1000) 50 = .ok (.found 5) ∧
    rabs ((5 : ℚ) - 5) < 1/1000 ∧
    falsePositionStep ⟨0, -5⟩ ⟨10, 5⟩ = 5 := by
  refine ⟨?_, by norm_num [rabs], by norm_num [falsePositionStep, rabs]⟩
  have hloop : rfLoop (fun x => x - 5) (1/1000) (49 + 1) ⟨0, -5⟩ ⟨10, 5⟩
      = .found 5 := by
    refine rfLoop_succ_found ?_ ?_
    · norm_num [falsePositionStep, rabs]
    · norm_num [rabs]
  norm_num [customRootFinder, signPairTruthy, sgn, rabs] at hloop ⊢
  exact hloop

/-- C10: for `f(x) = x - 5` with bracket `[10, 20]` and `x0 = 12`, all three
residuals share one sign, so bracket repair fails: the finder terminates
early without entering the main iteration and returns (after its diagnostic
print) the candidate with smallest absolute residual — the bracket endpoint
`10`, where `f(10) = 5` beats `f(12) = 7` and `f(20) = 15` — raising no
exception. -/
theorem claim_C10 :
    customRootFinder (fun x => x - 5) 12 (10, 20) (1/1000) 50
      = .ok (.closest 10) ∧
    bestCandidate ⟨10, 5⟩ ⟨12, 7⟩ ⟨20, 15⟩ = ⟨10, 5⟩ := by
  constructor
  · norm_num [customRootFinder, bestCandidate, signPairTruthy, sgn, rabs]
  · norm_num [bestCandidate, rabs]

end OpenMCSpec
